import Mathlib

/-!
Shallow embedding of `smart_contract_audit_agent` (src/agent.py, src/main.py)
and verification of its specification claims.

External effects are modelled explicitly: the OpenAI chat-completion endpoint
and the SMTP relay become oracle parameters, the process environment becomes a
record of the four SMTP variables, the history file becomes an inductive
`FileState`, and the wall clock becomes an explicit `now : String` argument.
`hashlib.sha256(...).hexdigest()` is implemented in full (FIPS 180-4) over
`Nat` with explicit reduction mod 2^32.
-/

namespace SmartContractAudit

/-! ## Python string primitives used by the sources -/

/-- Drop characters satisfying `p` from both ends of a character list
(the core of Python `str.strip`). -/
def stripEnds (p : Char → Bool) (l : List Char) : List Char :=
  ((l.dropWhile p).reverse.dropWhile p).reverse

/-- Python `s.strip()`: remove leading and trailing whitespace. -/
def pyStrip (s : String) : String :=
  String.mk (stripEnds Char.isWhitespace s.data)

/-- Python `s.strip("# ")`: remove leading and trailing characters drawn from
the set containing the hash mark and the space. -/
def pyStripHashSpace (s : String) : String :=
  String.mk (stripEnds (fun c => c = '#' || c = ' ') s.data)

/-- Python `a or b` specialised to strings: `a` when `a` is truthy (non-empty),
else `b`. -/
def pyOrStr (a b : String) : String :=
  if a = "" then b else a

/-- Python `int(s)` on a decimal literal: optional surrounding whitespace and
an optional sign before digits; `none` models the `ValueError` raised on any
other input. (Underscore separators and non-ASCII digits are not modelled;
no claim depends on them.) -/
def pyInt? (s : String) : Option Int :=
  let t := (pyStrip s).data
  let core := if t.head? = some '-' || t.head? = some '+' then t.drop 1 else t
  if core ≠ [] ∧ core.all Char.isDigit then
    let n : Nat := core.foldl (fun acc c => acc * 10 + (c.toNat - 48)) 0
    if t.head? = some '-' then some (-(n : Int)) else some (n : Int)
  else
    none

/-- Python `s.replace(":", "")`: removing every colon. -/
def removeColons (s : String) : String :=
  String.mk (s.data.filter (fun c => c ≠ ':'))

/-- Worker of `pySplitlines`: first argument is the remaining input, second the
(reversed) characters of the current line. -/
def splitlinesGo : List Char → List Char → List String
  | [], [] => []
  | [], acc => [String.mk acc.reverse]
  | '\n' :: rest, acc => String.mk acc.reverse :: splitlinesGo rest []
  | c :: rest, acc => splitlinesGo rest (c :: acc)

/-- Python `s.splitlines()` restricted to the newline terminator (the only one
the program produces): no trailing empty line when the text ends in a newline,
and the empty string yields no lines. -/
def pySplitlines (s : String) : List String :=
  splitlinesGo s.data []

/-! ## SHA-256 (`hashlib.sha256(code.encode("utf-8")).hexdigest()`) -/

/-- 2^32, the word modulus of SHA-256. -/
def M32 : Nat := 4294967296

/-- UTF-8 encoding of one code point, as byte values. -/
def utf8Bytes (c : Char) : List Nat :=
  let n := c.toNat
  if n < 128 then [n]
  else if n < 2048 then
    [192 ||| (n >>> 6), 128 ||| (n &&& 63)]
  else if n < 65536 then
    [224 ||| (n >>> 12), 128 ||| ((n >>> 6) &&& 63), 128 ||| (n &&& 63)]
  else
    [240 ||| (n >>> 18), 128 ||| ((n >>> 12) &&& 63),
     128 ||| ((n >>> 6) &&& 63), 128 ||| (n &&& 63)]

/-- UTF-8 bytes of a string (`str.encode("utf-8")`). -/
def strBytes (s : String) : List Nat :=
  s.data.flatMap utf8Bytes

/-- Right rotation of a 32-bit word. -/
def rotr (n w : Nat) : Nat :=
  ((w >>> n) ||| (w <<< (32 - n))) % M32

/-- SHA-256 Ch function. -/
def shaCh (x y z : Nat) : Nat :=
  (x &&& y) ^^^ ((x ^^^ 4294967295) &&& z)

/-- SHA-256 Maj function. -/
def shaMaj (x y z : Nat) : Nat :=
  (x &&& y) ^^^ (x &&& z) ^^^ (y &&& z)

/-- SHA-256 upper-case Sigma 0. -/
def capSig0 (w : Nat) : Nat := rotr 2 w ^^^ rotr 13 w ^^^ rotr 22 w

/-- SHA-256 upper-case Sigma 1. -/
def capSig1 (w : Nat) : Nat := rotr 6 w ^^^ rotr 11 w ^^^ rotr 25 w

/-- SHA-256 lower-case sigma 0. -/
def lowSig0 (w : Nat) : Nat := rotr 7 w ^^^ rotr 18 w ^^^ (w >>> 3)

/-- SHA-256 lower-case sigma 1. -/
def lowSig1 (w : Nat) : Nat := rotr 17 w ^^^ rotr 19 w ^^^ (w >>> 10)

/-- The 64 SHA-256 round constants (FIPS 180-4, written in decimal). -/
def shaK : List Nat :=
  [1116352408, 1899447441, 3049323471, 3921009573, 961987163,
   1508970993, 2453635748, 2870763221, 3624381080, 310598401,
   607225278, 1426881987, 1925078388, 2162078206, 2614888103,
   3248222580, 3835390401, 4022224774, 264347078, 604807628,
   770255983, 1249150122, 1555081692, 1996064986, 2554220882,
   2821834349, 2952996808, 3210313671, 3336571891, 3584528711,
   113926993, 338241895, 666307205, 773529912, 1294757372,
   1396182291, 1695183700, 1986661051, 2177026350, 2456956037,
   2730485921, 2820302411, 3259730800, 3345764771, 3516065817,
   3600352804, 4094571909, 275423344, 430227734, 506948616,
   659060556, 883997877, 958139571, 1322822218, 1537002063,
   1747873779, 1955562222, 2024104815, 2227730452, 2361852424,
   2428436474, 2756734187, 3204031479, 3329325298]

/-- The SHA-256 working state of eight 32-bit words. -/
structure Sha256State where
  a : Nat
  b : Nat
  c : Nat
  d : Nat
  e : Nat
  f : Nat
  g : Nat
  h : Nat

/-- The SHA-256 initial hash value (FIPS 180-4, written in decimal). -/
def initH : Sha256State :=
  ⟨1779033703, 3144134277, 1013904242, 2773480762,
   1359893119, 2600822924, 528734635, 1541459225⟩

/-- Pad a byte message: append 0x80, zero bytes to 56 mod 64, then the bit
length as eight big-endian bytes. -/
def padMessage (msg : List Nat) : List Nat :=
  let len := msg.length
  let bitLen := len * 8
  let zeros := (119 - len % 64) % 64
  msg ++ [128] ++ List.replicate zeros 0 ++
    [(bitLen >>> 56) &&& 255, (bitLen >>> 48) &&& 255, (bitLen >>> 40) &&& 255,
     (bitLen >>> 32) &&& 255, (bitLen >>> 24) &&& 255, (bitLen >>> 16) &&& 255,
     (bitLen >>> 8) &&& 255, bitLen &&& 255]

/-- Split a list into chunks of 64, driven by a fuel count. -/
def blocksAux : Nat → List Nat → List (List Nat)
  | 0, _ => []
  | n + 1, l => l.take 64 :: blocksAux n (l.drop 64)

/-- The 64-byte blocks of a padded message. -/
def blocks (l : List Nat) : List (List Nat) :=
  blocksAux (l.length / 64) l

/-- Big-endian 32-bit words of a 64-byte block. -/
def wordsOf : List Nat → List Nat
  | b0 :: b1 :: b2 :: b3 :: rest =>
    (((b0 * 256 + b1) * 256 + b2) * 256 + b3) :: wordsOf rest
  | _ => []

/-- Extend 16 message-schedule words to 64. -/
def buildSchedule (w : Array Nat) : Array Nat :=
  (List.range 48).foldl
    (fun w i =>
      let t := (lowSig1 (w.getD (i + 14) 0) + w.getD (i + 9) 0 +
                lowSig0 (w.getD (i + 1) 0) + w.getD i 0) % M32
      w.push t)
    w

/-- One SHA-256 compression step over a 64-byte block. -/
def compressBlock (st : Sha256State) (block : List Nat) : Sha256State :=
  let w := buildSchedule (Array.mk (wordsOf block))
  let fin := (List.range 64).foldl
    (fun (s : Sha256State) i =>
      let t1 := (s.h + capSig1 s.e + shaCh s.e s.f s.g + shaK.getD i 0 +
                 w.getD i 0) % M32
      let t2 := (capSig0 s.a + shaMaj s.a s.b s.c) % M32
      ⟨(t1 + t2) % M32, s.a, s.b, s.c, (s.d + t1) % M32, s.e, s.f, s.g⟩)
    st
  ⟨(st.a + fin.a) % M32, (st.b + fin.b) % M32, (st.c + fin.c) % M32,
   (st.d + fin.d) % M32, (st.e + fin.e) % M32, (st.f + fin.f) % M32,
   (st.g + fin.g) % M32, (st.h + fin.h) % M32⟩

/-- The final SHA-256 state of a string's UTF-8 bytes. -/
def sha256digestState (s : String) : Sha256State :=
  (blocks (padMessage (strBytes s))).foldl compressBlock initH

/-- Lowercase hexadecimal digit. -/
def hexDigit (n : Nat) : Char :=
  if n < 10 then Char.ofNat (48 + n) else Char.ofNat (87 + n)

/-- The eight lowercase hex characters of a 32-bit word. -/
def hexOfWord (w : Nat) : List Char :=
  [hexDigit ((w >>> 28) &&& 15), hexDigit ((w >>> 24) &&& 15),
   hexDigit ((w >>> 20) &&& 15), hexDigit ((w >>> 16) &&& 15),
   hexDigit ((w >>> 12) &&& 15), hexDigit ((w >>> 8) &&& 15),
   hexDigit ((w >>> 4) &&& 15), hexDigit (w &&& 15)]

/-- `hashlib.sha256(s.encode("utf-8")).hexdigest()`. -/
def sha256hex (s : String) : String :=
  String.mk
    (hexOfWord (sha256digestState s).a ++ hexOfWord (sha256digestState s).b ++
     hexOfWord (sha256digestState s).c ++ hexOfWord (sha256digestState s).d ++
     hexOfWord (sha256digestState s).e ++ hexOfWord (sha256digestState s).f ++
     hexOfWord (sha256digestState s).g ++ hexOfWord (sha256digestState s).h)

/-- main.py `_code_hash`: the first 12 characters of the hex digest. -/
def code_hash (code : String) : String :=
  String.mk ((sha256hex code).data.take 12)

/-! ## agent.py: prompt builder / API client

The remote chat-completion endpoint is an oracle `api : String → ApiResult`
mapping the full prompt to either the returned message content, an
`OpenAIError`, or any other exception. -/

/-- Outcome of one `client.chat.completions.create` call. -/
inductive ApiResult where
  | success (content : String)
  | openAIError (msg : String)
  | otherError (msg : String)
deriving DecidableEq

/-- The instructional prompt `audit_contract` builds around the code. -/
def audit_prompt (code : String) : String :=
  "\nYou are a professional smart contract auditor with strong expertise in Solidity and blockchain security.\n\nAnalyze the following Solidity smart contract and produce a concise, structured markdown report with three sections:\n1. **Security Vulnerabilities** (enumerate issues, include SWC IDs if relevant)\n2. **Gas Optimization Opportunities**\n3. **Code Quality Improvements**\n\nFor every issue, include:\n- A short description\n- Why it matters\n- A concrete fix or code snippet (when helpful)\n\nPrefer modern best practices for Solidity ^0.8.x:\n- Checks-Effects-Interactions\n- `call\x7bvalue: ...\x7d(\"\")` with boolean check (do not recommend `.transfer` as a blanket fix)\n- Consider `ReentrancyGuard` from OpenZeppelin where applicable\n- Emit events for critical state changes\n\nSmart Contract:\n```solidity\n"
    ++ code ++ "\n```\n"

/-- agent.py `audit_contract`: one blocking call; the trimmed content on
success, a marker-prefixed error string on `OpenAIError` or any other
exception. -/
def audit_contract (api : String → ApiResult) (code : String) : String :=
  match api (audit_prompt code) with
  | .success content => pyStrip content
  | .openAIError e => "❌ Audit failed: " ++ e
  | .otherError e => "❌ Unexpected error: " ++ e

/-- The rewrite-for-audience prompt `explain_audit_simple` builds. -/
def explain_prompt (audit_text audience : String) : String :=
  "\nYou are a helpful teacher explaining smart contract security to a "
    ++ audience
    ++ ".\nRewrite the following audit in clear, simple language:\n\nGuidelines:\n- Keep structure (headings / bullets) where it helps readability\n- Avoid heavy jargon; define unavoidable terms briefly\n- Be concise and friendly\n\nAudit to simplify:\n"
    ++ audit_text ++ "\n"

/-- agent.py `explain_audit_simple`: one blocking call; the trimmed content on
success, a descriptive error string on `OpenAIError` or any other
exception. -/
def explain_audit_simple (api : String → ApiResult) (audit_text audience : String) :
    String :=
  match api (explain_prompt audit_text audience) with
  | .success content => pyStrip content
  | .openAIError e => "Could not generate simple explanation: " ++ e
  | .otherError e => "Unexpected error while simplifying: " ++ e

/-! ## main.py: history store -/

/-- One persisted history record (the dict built by `add_history_entry`). -/
structure Entry where
  id : String
  timestamp : String
  code_hash : String
  code : String
  report : String
  simple_report : String
  title : String
deriving DecidableEq

/-- State of the backing file `audit_history.json`: missing, present but
unparseable, or a well-formed record array. -/
inductive FileState where
  | absent
  | corrupt
  | good (entries : List Entry)
deriving DecidableEq

/-- main.py `load_history`: the stored sequence, or `[]` when the file is
absent or any exception occurs while reading or parsing it. -/
def load_history : FileState → List Entry
  | .absent => []
  | .corrupt => []
  | .good entries => entries

/-- main.py `save_history`: overwrite the file with the full sequence. -/
def save_history (history : List Entry) : FileState :=
  .good history

/-- Worker of `infer_title_from_report`: the `for line in splitlines` loop. -/
def title_go : List String → String
  | [] => "Audit"
  | line :: rest =>
    let stripped := pyStrip (pyStripHashSpace line)
    if stripped ≠ "" then String.mk (stripped.data.take 60) else title_go rest

/-- main.py `infer_title_from_report`: first non-empty line after stripping
hash marks and whitespace, truncated to 60 characters; `"Audit"` when no such
line exists. -/
def infer_title_from_report (report : String) : String :=
  title_go (pySplitlines report)

/-- main.py `add_history_entry` with the creation instant passed explicitly:
builds the record, prepends it to the loaded history, writes the result back,
and returns the record (paired here with the new file state). -/
def add_history_entry (code report simple_report now : String) (fs : FileState) :
    Entry × FileState :=
  let entry : Entry :=
    { id := code_hash code ++ "-" ++ removeColons now
      timestamp := now
      code_hash := code_hash code
      code := code
      report := report
      simple_report := pyOrStr simple_report ""
      title := infer_title_from_report report }
  let history := load_history fs
  (entry, save_history (entry :: history))

/-- main.py `delete_history_entry`: keep exactly the records whose id differs
from the argument, and write the result back. -/
def delete_history_entry (entry_id : String) (fs : FileState) : FileState :=
  save_history ((load_history fs).filter (fun e => e.id != entry_id))

/-- main.py Clear All action: remove the backing file when it exists (the
file ends up absent either way). -/
def clear_all_action (fs : FileState) : FileState :=
  match fs with
  | .absent => .absent
  | _ => .absent

/-! ## main.py: email helper

The SMTP session (`smtplib.SMTP`, `starttls`, `login`, `send_message`) is an
oracle returning `some e` when any of those steps raises with message `e`,
and `none` on success. -/

/-- The message `send_email` assembles. -/
structure EmailMessage where
  fromAddr : String
  toAddr : String
  subject : String
  content : String
  attachmentName : String
  attachmentBytes : List Nat
deriving DecidableEq

/-- Process environment restricted to the four variables `send_email`
reads. -/
structure Env where
  SMTP_HOST : Option String
  SMTP_PORT : Option String
  SMTP_USER : Option String
  SMTP_PASS : Option String
deriving DecidableEq

/-- Python `os.getenv(key, default)`. -/
def getenv (value : Option String) (default : String) : String :=
  value.getD default

/-- How one `send_email` call ends at the caller: an uncaught exception or a
returned status string. -/
inductive PyOutcome where
  | raised (msg : String)
  | returned (status : String)
deriving DecidableEq

/-- A `send_email` call's ending together with whether an SMTP connection was
ever attempted. -/
structure SendResult where
  outcome : PyOutcome
  connectionAttempted : Bool
deriving DecidableEq

/-- The configuration-missing status string of `send_email`. -/
def smtpMissingMsg : String :=
  "SMTP settings missing. Check .env (SMTP_HOST/PORT/USER/PASS)."

/-- main.py `send_email`: resolves the four environment values (the port
defaulting to `"587"` and parsed with `int`, outside any handler), returns
the missing-settings status when any of the four is falsy, and otherwise
builds the message and runs the SMTP session inside a broad handler that
converts every exception into an `"Email error: ..."` status. -/
def send_email (env : Env)
    (relay : String → Int → String → String → EmailMessage → Option String)
    (body to_email subject : String) : SendResult :=
  let host := getenv env.SMTP_HOST ""
  let portStr := pyOrStr (getenv env.SMTP_PORT "587") "587"
  match pyInt? portStr with
  | none =>
    { outcome := .raised ("ValueError: invalid literal for int() with base 10: "
        ++ portStr)
      connectionAttempted := false }
  | some port =>
    let user := getenv env.SMTP_USER ""
    let pwd := getenv env.SMTP_PASS ""
    if host = "" ∨ port = 0 ∨ user = "" ∨ pwd = "" then
      { outcome := .returned smtpMissingMsg, connectionAttempted := false }
    else
      let msg : EmailMessage :=
        { fromAddr := user
          toAddr := to_email
          subject := subject
          content := body
          attachmentName := "audit_report.txt"
          attachmentBytes := strBytes body }
      match relay host port user pwd msg with
      | none => { outcome := .returned "sent", connectionAttempted := true }
      | some e =>
        { outcome := .returned ("Email error: " ++ e), connectionAttempted := true }

/-! ## main.py: presentation controller (generate-audit handler) -/

/-- The session fields main.py keeps in `st.session_state`. -/
structure SessionState where
  code_text : String
  report : String
  simple_report : String
  audit_done : Bool
  simple_done : Bool
  selected_history_id : String
deriving DecidableEq

/-- Observable result of one generate-audit click: the new session state and
file state, whether the warning was shown, whether the remote API was called,
and the history record persisted (if any). -/
structure ActionResult where
  state : SessionState
  file : FileState
  warned : Bool
  apiCalled : Bool
  savedEntry : Option Entry
deriving DecidableEq

/-- main.py `if gen_clicked:` handler with the clock and API oracle passed
explicitly: guard on empty or too-short trimmed code, else run the audit,
reset the simplified fields, and persist a new history record. -/
def gen_clicked_handler (api : String → ApiResult) (now : String)
    (s : SessionState) (fs : FileState) : ActionResult :=
  if s.code_text = "" ∨ (pyStrip s.code_text).length < 10 then
    { state := s, file := fs, warned := true, apiCalled := false,
      savedEntry := none }
  else
    let report := audit_contract api s.code_text
    let s1 : SessionState :=
      { s with report := report, audit_done := true,
               simple_report := "", simple_done := false }
    let added := add_history_entry s1.code_text s1.report
      (pyOrStr s1.simple_report "") now fs
    { state := s1, file := added.2, warned := false, apiCalled := true,
      savedEntry := some added.1 }

/-! ## Supporting lemmas -/

/-- Two strings with the same character data are equal. -/
theorem stringDataInj {a b : String} (h : a.data = b.data) : a = b := by
  cases a; cases b; exact congrArg String.mk h

/-- The hex digest always has 64 characters. -/
theorem sha256hex_data_length (s : String) : (sha256hex s).data.length = 64 := rfl

/-- `_code_hash` always yields 12 characters. -/
theorem code_hash_data_length (c : String) : (code_hash c).data.length = 12 := rfl

/-- The id a new history entry receives: content hash, a dash, and the
colon-stripped creation instant. -/
theorem add_history_entry_id (code report simple now : String) (fs : FileState) :
    (add_history_entry code report simple now fs).1.id =
      code_hash code ++ "-" ++ removeColons now := rfl

/-- Filtering out one id shortens a list by the number of records bearing
that id. -/
theorem filter_ne_id_length (l : List Entry) (i : String) :
    (l.filter (fun e => e.id != i)).length =
      l.length - l.countP (fun e => e.id == i) := by
  induction l with
  | nil => rfl
  | cons a t ih =>
    have hle := List.countP_le_length (p := fun e => e.id == i) (l := t)
    by_cases h : a.id = i
    · simp [List.filter_cons, List.countP_cons, h, ih]
    · simp [List.filter_cons, List.countP_cons, h, ih]
      omega

/-- `title_go` never returns more than 60 characters. -/
theorem title_go_length_le (lines : List String) : (title_go lines).length ≤ 60 := by
  induction lines with
  | nil => decide
  | cons line rest ih =>
    simp only [title_go]
    by_cases h : pyStrip (pyStripHashSpace line) ≠ ""
    · rw [if_pos h]
      show ((pyStrip (pyStripHashSpace line)).data.take 60).length ≤ 60
      rw [List.length_take]
      exact Nat.min_le_left _ _
    · rw [if_neg h]
      exact ih

/-! ## Claims -/

/-- C4 (counterexample): in a store holding two distinct records that share
the id `"x"`, a record with that id is present, yet deleting `"x"` does not
reduce the length by exactly one (it drops from 2 to 0). -/
theorem C4_counterexample :
    (Entry.mk "x" "t" "h" "c" "r1" "" "T").id = "x" ∧
    Entry.mk "x" "t" "h" "c" "r1" "" "T" ∈
      load_history (FileState.good
        [Entry.mk "x" "t" "h" "c" "r1" "" "T", Entry.mk "x" "t" "h" "c" "r2" "" "T"]) ∧
    (load_history (delete_history_entry "x" (FileState.good
        [Entry.mk "x" "t" "h" "c" "r1" "" "T", Entry.mk "x" "t" "h" "c" "r2" "" "T"]))).length ≠
      (load_history (FileState.good
        [Entry.mk "x" "t" "h" "c" "r1" "" "T", Entry.mk "x" "t" "h" "c" "r2" "" "T"])).length - 1 := by
  decide

/-- C4 (amended): `deleteById(id)` followed by `loadAll` yields a sequence
containing no record whose id equals the deleted id, with length reduced by
exactly the number of records whose id equalled it — hence by exactly one
when a single record carried the id, and unchanged when the id was absent. -/
theorem C4_delete_then_load (fs : FileState) (entry_id : String) :
    ((load_history (delete_history_entry entry_id fs)).all
        (fun e => e.id != entry_id)) = true ∧
    (load_history (delete_history_entry entry_id fs)).length =
      (load_history fs).length -
        (load_history fs).countP (fun e => e.id == entry_id) := by
  constructor
  · simp only [delete_history_entry, save_history, load_history, List.all_eq_true]
    intro e he
    exact (List.mem_filter.mp he).2
  · exact filter_ne_id_length (load_history fs) entry_id

/-- C6: `append` followed by `loadAll` returns the appended record as the
first element (and the prior sequence as the rest), for any prior store
state. -/
theorem C6_append_then_load (code report simple now : String) (fs : FileState) :
    load_history (add_history_entry code report simple now fs).2 =
      (add_history_entry code report simple now fs).1 :: load_history fs ∧
    (load_history (add_history_entry code report simple now fs).2).head? =
      some (add_history_entry code report simple now fs).1 :=
  ⟨rfl, rfl⟩

/-- C7: `clearAll` followed by `loadAll` returns the empty sequence,
regardless of the prior file state. -/
theorem C7_clear_then_load (fs : FileState) :
    load_history (clear_all_action fs) = [] := by
  cases fs <;> rfl

/-- C9: the persisted record's title is `infer_title_from_report` of the
report; the title never exceeds 60 characters; and for the spec's example
report beginning `## Security Vulnerabilities`, the title is exactly
`Security Vulnerabilities`. -/
theorem C9_title (code report simple now : String) (fs : FileState) :
    (add_history_entry code report simple now fs).1.title =
      infer_title_from_report report ∧
    (∀ r : String, (infer_title_from_report r).length ≤ 60) ∧
    infer_title_from_report
        "## Security Vulnerabilities\n- reentrancy in withdraw\n## Gas Optimization Opportunities\n- cache length\n## Code Quality Improvements\n- add events" =
      "Security Vulnerabilities" := by
  refine ⟨rfl, ?_, by decide⟩
  intro r
  exact title_go_length_le (pySplitlines r)

/-- C5 (counterexample): an audit action and an explain action on the same
source text within the same second (here the explain's record appended right
after the audit's) create two distinct records with identical ids — the id
is not unique across the store. -/
theorem C5_counterexample :
    (add_history_entry "pragma solidity ^0.8.20;" "## report" ""
        "2025-01-01T12:00:00" FileState.absent).1.id =
      (add_history_entry "pragma solidity ^0.8.20;" "## report" "simple version"
        "2025-01-01T12:00:00"
        (add_history_entry "pragma solidity ^0.8.20;" "## report" ""
          "2025-01-01T12:00:00" FileState.absent).2).1.id ∧
    (add_history_entry "pragma solidity ^0.8.20;" "## report" ""
        "2025-01-01T12:00:00" FileState.absent).1 ≠
      (add_history_entry "pragma solidity ^0.8.20;" "## report" "simple version"
        "2025-01-01T12:00:00"
        (add_history_entry "pragma solidity ^0.8.20;" "## report" ""
          "2025-01-01T12:00:00" FileState.absent).2).1 := by
  refine ⟨rfl, fun h => absurd (congrArg Entry.simple_report h) ?_⟩
  decide

/-- C5 (amended): record ids collide exactly on equal content hash and equal
colon-stripped creation second — whenever two creations differ in their
12-character content hash or in their whole-second timestamp, the resulting
ids differ. (Identical source text submitted twice within one second yields
the same id; see the counterexample.) -/
theorem C5_id_distinct (c1 r1 s1 t1 : String) (fs1 : FileState)
    (c2 r2 s2 t2 : String) (fs2 : FileState)
    (h : code_hash c1 ≠ code_hash c2 ∨ removeColons t1 ≠ removeColons t2) :
    (add_history_entry c1 r1 s1 t1 fs1).1.id ≠
      (add_history_entry c2 r2 s2 t2 fs2).1.id := by
  intro heq
  rw [add_history_entry_id, add_history_entry_id] at heq
  have hd := congrArg String.data heq
  simp only [String.data_append] at hd
  rw [List.append_assoc, List.append_assoc] at hd
  have hlen : (code_hash c1).data.length = (code_hash c2).data.length := by
    rw [code_hash_data_length, code_hash_data_length]
  obtain ⟨h1, h2⟩ := List.append_inj hd hlen
  have hhash : code_hash c1 = code_hash c2 := stringDataInj h1
  have htime : removeColons t1 = removeColons t2 := by
    refine stringDataInj ?_
    simpa using h2
  rcases h with h | h
  · exact h hhash
  · exact h htime

/-- C5 (witness): two creations one second apart have different ids. -/
theorem C5_witness :
    removeColons "2025-01-01T12:00:00" ≠ removeColons "2025-01-01T12:00:01" ∧
    (add_history_entry "pragma solidity ^0.8.20;" "## report" ""
        "2025-01-01T12:00:00" FileState.absent).1.id ≠
      (add_history_entry "pragma solidity ^0.8.20;" "## report" ""
        "2025-01-01T12:00:01" FileState.absent).1.id :=
  ⟨by decide,
   C5_id_distinct "pragma solidity ^0.8.20;" "## report" "" "2025-01-01T12:00:00"
     FileState.absent "pragma solidity ^0.8.20;" "## report" "" "2025-01-01T12:00:01"
     FileState.absent (Or.inr (by decide))⟩

/-- An API oracle that always fails with an `OpenAIError`. -/
def openAIFailApi : String → ApiResult :=
  fun _ => ApiResult.openAIError "401 Unauthorized"

/-- An API oracle that always fails with a non-OpenAI exception. -/
def otherFailApi : String → ApiResult :=
  fun _ => ApiResult.otherError "timeout"

/-- The first character of the `OpenAIError` message of
`explain_audit_simple`. -/
theorem could_not_head (e : String) :
    ("Could not generate simple explanation: " ++ e).data.head? = some 'C' := by
  rw [String.data_append]; rfl

/-- The first character of the generic-exception message of
`explain_audit_simple`. -/
theorem unexpected_simplify_head (e : String) :
    ("Unexpected error while simplifying: " ++ e).data.head? = some 'U' := by
  rw [String.data_append]; rfl

/-- C1 (counterexample): on an API failure, `explain_audit_simple` returns a
plain error string that does not begin with the `❌` marker, while
`audit_contract`'s error string on the same failure does. -/
theorem C1_counterexample :
    explain_audit_simple openAIFailApi "## report body" "beginner" =
      "Could not generate simple explanation: 401 Unauthorized" ∧
    (explain_audit_simple openAIFailApi "## report body" "beginner").data.head? ≠
      some '❌' ∧
    (audit_contract openAIFailApi "pragma solidity ^0.8.20;").data.head? =
      some '❌' := by
  refine ⟨rfl, ?_, rfl⟩
  decide

/-- C1 (amended): on any API-level failure `explain_audit_simple` does return
a human-readable error string rather than raising — one of its two
descriptive messages — but that string is not prefixed with the `❌` failure
marker that `audit_contract` uses. -/
theorem C1_explain_errors_lack_marker (api : String → ApiResult)
    (text audience e : String)
    (h : api (explain_prompt text audience) = ApiResult.openAIError e ∨
         api (explain_prompt text audience) = ApiResult.otherError e) :
    (explain_audit_simple api text audience =
        "Could not generate simple explanation: " ++ e ∨
     explain_audit_simple api text audience =
        "Unexpected error while simplifying: " ++ e) ∧
    (explain_audit_simple api text audience).data.head? ≠ some '❌' := by
  rcases h with h | h
  · refine ⟨Or.inl ?_, ?_⟩
    · simp [explain_audit_simple, h]
    · simp only [explain_audit_simple, h]
      rw [could_not_head]
      decide
  · refine ⟨Or.inr ?_, ?_⟩
    · simp [explain_audit_simple, h]
    · simp only [explain_audit_simple, h]
      rw [unexpected_simplify_head]
      decide

/-- C1 (witness): the amended statement at a concrete failing oracle. -/
theorem C1_witness :
    (otherFailApi (explain_prompt "## report body" "beginner") =
        ApiResult.openAIError "timeout" ∨
     otherFailApi (explain_prompt "## report body" "beginner") =
        ApiResult.otherError "timeout") ∧
    ((explain_audit_simple otherFailApi "## report body" "beginner" =
        "Could not generate simple explanation: " ++ "timeout" ∨
      explain_audit_simple otherFailApi "## report body" "beginner" =
        "Unexpected error while simplifying: " ++ "timeout") ∧
     (explain_audit_simple otherFailApi "## report body" "beginner").data.head? ≠
       some '❌') :=
  ⟨Or.inr rfl,
   C1_explain_errors_lack_marker otherFailApi "## report body" "beginner" "timeout"
     (Or.inr rfl)⟩

/-- An SMTP session oracle on which every session succeeds. -/
def relayOk : String → Int → String → String → EmailMessage → Option String :=
  fun _ _ _ _ _ => none

/-- An SMTP session oracle on which every session raises. -/
def relayRefused : String → Int → String → String → EmailMessage → Option String :=
  fun _ _ _ _ _ => some "Connection refused"

/-- C2 (counterexample): with host, username and password set but `SMTP_PORT`
absent, `send_email` does not return the configuration-missing status and does
attempt a connection — the port silently defaults to 587. -/
theorem C2_counterexample :
    (Env.mk (some "smtp.example.com") none (some "alice") (some "hunter2")).SMTP_PORT =
      none ∧
    (send_email (Env.mk (some "smtp.example.com") none (some "alice") (some "hunter2"))
        relayOk "report body" "bob@example.com" "Audit").connectionAttempted = true ∧
    (send_email (Env.mk (some "smtp.example.com") none (some "alice") (some "hunter2"))
        relayOk "report body" "bob@example.com" "Audit").outcome ≠
      PyOutcome.returned smtpMissingMsg := by
  decide

/-- C2 (amended): whenever any of host, username or password is absent — and
the port value (defaulted to `"587"` when absent or empty) parses as an
integer, since that conversion runs first — `send_email` returns the
configuration-missing status and attempts no connection. An absent port alone
defaults to 587 and never triggers the missing status. -/
theorem C2_missing_config (env : Env)
    (relay : String → Int → String → String → EmailMessage → Option String)
    (body to_email subject : String)
    (hport : pyInt? (pyOrStr (getenv env.SMTP_PORT "587") "587") ≠ none)
    (habsent : env.SMTP_HOST = none ∨ env.SMTP_USER = none ∨ env.SMTP_PASS = none) :
    send_email env relay body to_email subject =
      { outcome := .returned smtpMissingMsg, connectionAttempted := false } := by
  obtain ⟨p, hp⟩ := Option.ne_none_iff_exists'.mp hport
  simp only [getenv] at hp
  rcases habsent with h | h | h <;>
    simp [send_email, hp, getenv, h]

/-- C2 (witness): the amended statement for a fully empty environment. -/
theorem C2_witness :
    pyInt? (pyOrStr (getenv (Env.mk none none none none).SMTP_PORT "587") "587") ≠
      none ∧
    ((Env.mk none none none none).SMTP_HOST = none ∨
     (Env.mk none none none none).SMTP_USER = none ∨
     (Env.mk none none none none).SMTP_PASS = none) ∧
    send_email (Env.mk none none none none) relayOk "report body" "bob@example.com"
        "Audit" =
      { outcome := .returned smtpMissingMsg, connectionAttempted := false } :=
  ⟨by decide, Or.inl rfl,
   C2_missing_config (Env.mk none none none none) relayOk "report body"
     "bob@example.com" "Audit" (by decide) (Or.inl rfl)⟩

/-- C3 (counterexample): with `SMTP_PORT` set to the malformed value `"abc"`,
`send_email` raises a `ValueError` to the caller — the `int` conversion runs
before the `try` block — instead of returning a status string. -/
theorem C3_counterexample :
    (send_email (Env.mk (some "smtp.example.com") (some "abc") (some "alice")
        (some "hunter2")) relayRefused "report body" "bob@example.com" "Audit").outcome =
      PyOutcome.raised "ValueError: invalid literal for int() with base 10: abc" := by
  decide

/-- C3 (amended): whenever the effective `SMTP_PORT` value (defaulted to
`"587"` when absent or empty) parses as an integer, `send_email` is total for
every body, recipient and subject: it returns the missing-settings status, the
literal success token, or a descriptive error string — never raising. A
malformed port value instead raises `ValueError` to the caller. -/
theorem C3_total_when_port_parses (env : Env)
    (relay : String → Int → String → String → EmailMessage → Option String)
    (body to_email subject : String)
    (hport : pyInt? (pyOrStr (getenv env.SMTP_PORT "587") "587") ≠ none) :
    (send_email env relay body to_email subject).outcome =
        PyOutcome.returned smtpMissingMsg ∨
    (send_email env relay body to_email subject).outcome =
        PyOutcome.returned "sent" ∨
    ∃ e, (send_email env relay body to_email subject).outcome =
        PyOutcome.returned ("Email error: " ++ e) := by
  obtain ⟨p, hp⟩ := Option.ne_none_iff_exists'.mp hport
  simp only [send_email, hp]
  by_cases hmiss : getenv env.SMTP_HOST "" = "" ∨ p = 0 ∨
      getenv env.SMTP_USER "" = "" ∨ getenv env.SMTP_PASS "" = ""
  · rw [if_pos hmiss]
    exact Or.inl rfl
  · rw [if_neg hmiss]
    cases relay (getenv env.SMTP_HOST "") p (getenv env.SMTP_USER "")
        (getenv env.SMTP_PASS "")
        { fromAddr := getenv env.SMTP_USER ""
          toAddr := to_email
          subject := subject
          content := body
          attachmentName := "audit_report.txt"
          attachmentBytes := strBytes body } with
    | none => exact Or.inr (Or.inl rfl)
    | some e => exact Or.inr (Or.inr ⟨e, rfl⟩)

/-- C3 (witness): the amended statement for a fully configured environment
and a failing relay. -/
theorem C3_witness :
    pyInt? (pyOrStr (getenv (Env.mk (some "smtp.example.com") (some "587")
        (some "alice") (some "hunter2")).SMTP_PORT "587") "587") ≠ none ∧
    ((send_email (Env.mk (some "smtp.example.com") (some "587") (some "alice")
        (some "hunter2")) relayRefused "report body" "bob@example.com" "Audit").outcome =
      PyOutcome.returned smtpMissingMsg ∨
     (send_email (Env.mk (some "smtp.example.com") (some "587") (some "alice")
        (some "hunter2")) relayRefused "report body" "bob@example.com" "Audit").outcome =
      PyOutcome.returned "sent" ∨
     ∃ e, (send_email (Env.mk (some "smtp.example.com") (some "587") (some "alice")
        (some "hunter2")) relayRefused "report body" "bob@example.com" "Audit").outcome =
      PyOutcome.returned ("Email error: " ++ e)) :=
  ⟨by decide,
   C3_total_when_port_parses (Env.mk (some "smtp.example.com") (some "587")
     (some "alice") (some "hunter2")) relayRefused "report body" "bob@example.com"
     "Audit" (by decide)⟩

/-- C8: when the session's source text is empty or its trimmed form is
shorter than 10 characters, the generate-audit click only shows the warning:
no remote call is made, no history record is created, and session and file
state are unchanged. -/
theorem C8_guard_blocks_call (api : String → ApiResult) (now : String)
    (s : SessionState) (fs : FileState)
    (h : s.code_text = "" ∨ (pyStrip s.code_text).length < 10) :
    gen_clicked_handler api now s fs =
      { state := s, file := fs, warned := true, apiCalled := false,
        savedEntry := none } := by
  simp [gen_clicked_handler, h]

/-- C8 (witness): the guard at a concrete five-character input. -/
theorem C8_witness :
    (("  hi  " : String) = "" ∨ (pyStrip "  hi  ").length < 10) ∧
    gen_clicked_handler (fun _ => ApiResult.success "## ok") "2025-01-01T12:00:00"
        (SessionState.mk "  hi  " "" "" false false "") FileState.absent =
      { state := SessionState.mk "  hi  " "" "" false false "",
        file := FileState.absent, warned := true, apiCalled := false,
        savedEntry := none } :=
  ⟨Or.inr (by decide),
   C8_guard_blocks_call (fun _ => ApiResult.success "## ok") "2025-01-01T12:00:00"
     (SessionState.mk "  hi  " "" "" false false "") FileState.absent
     (Or.inr (by decide))⟩

/-- C10: every generate-audit click that passes the input guard resets the
simplified-report session fields to empty/false before persisting, so the
history record it creates carries an empty `simple_report` — whatever
simplified report the session held beforehand. -/
theorem C10_simple_report_reset (api : String → ApiResult) (now : String)
    (s : SessionState) (fs : FileState)
    (h : ¬ (s.code_text = "" ∨ (pyStrip s.code_text).length < 10)) :
    (gen_clicked_handler api now s fs).state.simple_report = "" ∧
    (gen_clicked_handler api now s fs).state.simple_done = false ∧
    ((gen_clicked_handler api now s fs).savedEntry.map Entry.simple_report) =
      some "" := by
  simp [gen_clicked_handler, h, add_history_entry, pyOrStr]

/-- C10 (witness): a session that already holds a simplified report still
persists a record with an empty `simple_report`. -/
theorem C10_witness :
    ¬ (("pragma solidity ^0.8.20;" : String) = "" ∨
        (pyStrip "pragma solidity ^0.8.20;").length < 10) ∧
    ((gen_clicked_handler (fun _ => ApiResult.success "## ok") "2025-01-01T12:00:00"
        (SessionState.mk "pragma solidity ^0.8.20;" "old report" "OLD SIMPLE" true
          true "") FileState.absent).state.simple_report = "" ∧
     (gen_clicked_handler (fun _ => ApiResult.success "## ok") "2025-01-01T12:00:00"
        (SessionState.mk "pragma solidity ^0.8.20;" "old report" "OLD SIMPLE" true
          true "") FileState.absent).state.simple_done = false ∧
     ((gen_clicked_handler (fun _ => ApiResult.success "## ok") "2025-01-01T12:00:00"
        (SessionState.mk "pragma solidity ^0.8.20;" "old report" "OLD SIMPLE" true
          true "") FileState.absent).savedEntry.map Entry.simple_report) = some "") :=
  ⟨by decide,
   C10_simple_report_reset (fun _ => ApiResult.success "## ok") "2025-01-01T12:00:00"
     (SessionState.mk "pragma solidity ^0.8.20;" "old report" "OLD SIMPLE" true
       true "") FileState.absent (by decide)⟩

end SmartContractAudit
